import Mathlib

/-!
Shallow embedding of the cutting-parameter solver of the JustTheChip
repository (src/src/calculations/speeds-feeds.js and the constants in
src/src/utils/constants.js and the materials database), together with
theorems settling the frozen claims about it.

Numbers are modelled exactly: rational-valued data and arithmetic use ℚ;
formulas involving π, tan or square roots use ℝ.  JavaScript `x || d`
fallback on numeric fields (undefined and 0 both fall back) is modelled
by the helper jsOr.
-/

namespace JustTheChip

/-- Warning severities used by the diagnostics (type field of the pushed records). -/
inductive Severity
  | info
  | warning
  | danger
deriving DecidableEq

/-- Tool type variants, from TOOL_TYPES in src/src/calculations/speeds-feeds.js
(tools database section). -/
inductive ToolType
  | endmill_flat
  | endmill_ball
  | chamfer
  | vbit
  | facemill
  | drill
  | threadmill
  | tapered
  | boring
  | slitting
deriving DecidableEq

/-- Cut type keys of the CUT_TYPES catalog (the key written as 3d_contour in
the source is spelled contour3d here because Lean names cannot start with a
digit). -/
inductive CutType
  | slot
  | profile
  | adaptive
  | facing
  | plunge
  | chamfer
  | deburr
  | countersink
  | vcarve
  | engraving
  | shoulder
  | ramping
  | drilling
  | spot_drill
  | peck_drill
  | thread_mill
  | helical
  | contour3d
  | draft_angle
  | boring
  | internal_profile
  | slitting
  | grooving
deriving DecidableEq

/-- Tool shank material; the source checks tool.material === 'hss' and treats
every other value as carbide (the default branch). -/
inductive ToolShankMaterial
  | carbide
  | hss
deriving DecidableEq

/-- Tool holder types of DEFLECTION_CONSTANTS.TOOL_HOLDER_COMPLIANCE in
src/src/utils/constants.js. -/
inductive HolderType
  | collet
  | shrink_fit
  | hydraulic
  | poor_setup
deriving DecidableEq

/-- Warning messages are modelled as tags (with the numeric payloads that the
source interpolates into the message strings carried as fields; the decimal
string formatting itself, such as toFixed(3), is presentation and is not
modelled). -/
inductive WarningMsg
  | rpmLimitedByMin
  | rpmLimitedByMax
  | chipThinningApplied
  | feedLimitedByMachine
  | powerLimited
  | highDeflection (d : ℝ)
  | moderateDeflection (d : ℝ)
  | userDocExceedsMax (doc maxAp : ℝ)

/-- One diagnostic record: { type: severity, message }. -/
structure Warning where
  severity : Severity
  message : WarningMsg

/-- Per-axis aggressiveness multipliers of the machine record
(machine.aggressiveness.radial / .axial). -/
structure Aggressiveness where
  radial : ℚ
  axial : ℚ

/-- Machine record: only the fields read by the embedded functions
(K_rigidity and aggressiveness) are modelled. -/
structure Machine where
  K_rigidity : ℚ
  aggressiveness : Aggressiveness

/-- Spindle record fields read by getSpindlePowerAtRPM and the RPM clamp. -/
structure Spindle where
  rated_power_kW : ℚ
  base_rpm : ℚ
  rpm_min : ℚ
  rpm_max : ℚ

/-- Material record: the fields read by the embedded functions.  The per-cut
fraction tables are partial maps (a material defines entries for only some cut
types), and chip_thinning is the optional object whose enable_below_fraction
field is the stored rational.  specific_cutting_energy_J_mm3 is modelled as a
present field: every material in the database defines it, so the string-based
fallback getSpecificCuttingEnergy of the source is never taken on catalog
materials and is not modelled. -/
structure Material where
  max_radial_engagement_fraction : CutType → Option ℚ
  max_axial_per_pass_D : CutType → Option ℚ
  chip_thinning : Option ℚ
  specific_cutting_energy_J_mm3 : ℚ

/-- Tool record: the geometry fields read by the embedded functions.  Optional
fields model properties that a tool object may not define. -/
structure Tool where
  type : ToolType
  diameter_mm : ℚ := 0
  stickout_mm : Option ℚ := none
  shank_mm : Option ℚ := none
  angle_deg : ℚ := 0
  tip_diameter_mm : ℚ := 0
  material : ToolShankMaterial := .carbide

/-- JavaScript `x || d` on an optional numeric field: an absent field and the
value 0 both fall back to the default d. -/
def jsOr (x : Option ℚ) (d : ℚ) : ℚ :=
  match x with
  | none => d
  | some v => if v = 0 then d else v

/-! ### Spindle power curve and RPM clamp -/

/-- getSpindlePowerAtRPM of SpeedsFeedsCalculator (speeds-feeds.js lines
416-434): zero outside [rpm_min, rpm_max]; below/at base_rpm a constant-torque
ramp, the product of the linear RPM ratio and a torque ratio capped at 1;
above base_rpm constant rated power; the whole result times the 0.85
efficiency factor. -/
def getSpindlePowerAtRPM (s : Spindle) (rpm : ℚ) : ℚ :=
  let efficiency : ℚ := 0.85
  if rpm < s.rpm_min ∨ rpm > s.rpm_max then 0
  else
    let availablePower : ℚ :=
      if rpm ≤ s.base_rpm then
        let torqueRamp := min (rpm / (s.rpm_min * 1.5)) 1
        s.rated_power_kW * 1000 * (rpm / s.base_rpm) * torqueRamp
      else
        s.rated_power_kW * 1000
    availablePower * efficiency

/-- RPM clamping to the spindle limits (speeds-feeds.js lines 36-43), with the
warning pushed on either clamp. -/
def clampRPM (s : Spindle) (rpm : ℚ) (ws : List Warning) : ℚ × List Warning :=
  if rpm < s.rpm_min then (s.rpm_min, ws ++ [⟨.warning, .rpmLimitedByMin⟩])
  else if rpm > s.rpm_max then (s.rpm_max, ws ++ [⟨.warning, .rpmLimitedByMax⟩])
  else (rpm, ws)

/-! ### Required power and the power balancer -/

/-- getToolPowerFactor of SpeedsFeedsCalculator (speeds-feeds.js lines
243-256). -/
def getToolPowerFactor : ToolType → ℚ
  | .facemill => 0.7
  | .slitting => 1.2
  | .drill => 1.1
  | .endmill_ball => 0.9
  | _ => 1

/-- calculateImprovedPower of SpeedsFeedsCalculator (speeds-feeds.js lines
199-222): cutting power from the rectangular MRR ae*ap*vf and the material
specific cutting energy, times the tool power factor and the machine rigidity
factor, plus 15 percent spindle losses.  (The source also computes an unused
MRR_cm3_min local, omitted here.) -/
def calculateImprovedPower (m : Material) (mach : Machine) (tt : ToolType)
    (ae ap vf : ℚ) : ℚ :=
  let MRR_mm3_min := ae * ap * vf
  let specificEnergy := m.specific_cutting_energy_J_mm3
  let cuttingPower := MRR_mm3_min * specificEnergy / 60
  let cuttingPower := cuttingPower * getToolPowerFactor tt
  let cuttingPower := cuttingPower * mach.K_rigidity
  let spindleLosses := cuttingPower * 0.15
  cuttingPower + spindleLosses

/-- Power limiting step of SpeedsFeedsCalculator.calculate (speeds-feeds.js
lines 84-90): when required power exceeds 90 percent of available power, feed
rate, adjusted chip load and MRR are all multiplied by the single ratio
(available * 0.85) / required and a warning is pushed; otherwise the state is
unchanged. -/
def powerBalance (powerRequired powerAvailable vf fz mrr : ℚ) (ws : List Warning) :
    ℚ × ℚ × ℚ × List Warning :=
  if powerRequired > powerAvailable * 0.9 then
    let powerRatio := powerAvailable * 0.85 / powerRequired
    (vf * powerRatio, fz * powerRatio, mrr * powerRatio,
      ws ++ [⟨.warning, .powerLimited⟩])
  else
    (vf, fz, mrr, ws)

/-! ### Material removal rate -/

/-- calculateMRR of SpeedsFeedsCalculator (speeds-feeds.js lines 284-290):
circular cross-section for the drill variant, rectangular for all others. -/
noncomputable def calculateMRR (tt : ToolType) (D ae ap vf : ℝ) : ℝ :=
  if tt = .drill then
    Real.pi * D * D / 4 * vf
  else
    ae * ap * vf

/-- Modelled from the spec: the required-power formula of section 4.4 as the
claim reads it, with the MRR term supplied by calculateMRR (so circular
cross-section for the drill variant).  The code's calculateImprovedPower is
compared against this definition. -/
noncomputable def claimedRequiredPower (m : Material) (mach : Machine)
    (tt : ToolType) (D ae ap vf : ℝ) : ℝ :=
  calculateMRR tt D ae ap vf * (m.specific_cutting_energy_J_mm3 : ℝ) / 60
    * (getToolPowerFactor tt : ℝ) * (mach.K_rigidity : ℝ) * 1.15

/-! ### Engagement resolver -/

/-- Cut definition record shape: the optional single nominal radial fraction,
the optional radial fraction range, and the axial fraction range.  (The name
and toolTypes fields of the catalog entries are presentational and are not
read by any embedded function.) -/
structure CutDef where
  ae_fraction : Option ℚ := none
  ae_fraction_range : Option (ℚ × ℚ) := none
  ap_fraction_range : ℚ × ℚ

/-- getCutDefinition of SpeedsFeedsCalculator (speeds-feeds.js lines 391-398):
a fixed stub, returned for every cut type — the source comments it with
"This would come from cut types data. For now, return basic structure". -/
def getCutDefinition : CutDef :=
  { ae_fraction := some 0.3, ap_fraction_range := (0.5, 1) }

/-- The CUT_TYPES catalog (speeds-feeds.js lines 511-653, tools database
section): per cut type nominal engagement fraction data. -/
def CUT_TYPES : CutType → CutDef
  | .slot => { ae_fraction := some 1, ap_fraction_range := (0.8, 1) }
  | .profile => { ae_fraction_range := some (0.2, 0.4), ap_fraction_range := (1, 1.5) }
  | .adaptive => { ae_fraction_range := some (0.1, 0.2), ap_fraction_range := (1.5, 3) }
  | .facing => { ae_fraction_range := some (0.6, 0.8), ap_fraction_range := (0.1, 0.3) }
  | .plunge => { ae_fraction := some 1, ap_fraction_range := (0.1, 0.3) }
  | .chamfer => { ae_fraction_range := some (0.3, 0.5), ap_fraction_range := (0.5, 1) }
  | .deburr => { ae_fraction_range := some (0.1, 0.2), ap_fraction_range := (0.1, 0.3) }
  | .countersink => { ae_fraction := some 1, ap_fraction_range := (0.2, 0.5) }
  | .vcarve => { ae_fraction_range := some (0.8, 1), ap_fraction_range := (0.5, 1) }
  | .engraving => { ae_fraction_range := some (0.5, 0.8), ap_fraction_range := (0.1, 0.3) }
  | .shoulder => { ae_fraction_range := some (0.3, 0.5), ap_fraction_range := (0.8, 1.2) }
  | .ramping => { ae_fraction_range := some (0.4, 0.6), ap_fraction_range := (0.2, 0.4) }
  | .drilling => { ae_fraction := some 1, ap_fraction_range := (2, 5) }
  | .spot_drill => { ae_fraction := some 1, ap_fraction_range := (0.2, 0.5) }
  | .peck_drill => { ae_fraction := some 1, ap_fraction_range := (0.5, 1.5) }
  | .thread_mill => { ae_fraction_range := some (0.6, 0.8), ap_fraction_range := (0.3, 0.5) }
  | .helical => { ae_fraction_range := some (0.4, 0.6), ap_fraction_range := (0.2, 0.4) }
  | .contour3d => { ae_fraction_range := some (0.1, 0.3), ap_fraction_range := (0.1, 0.5) }
  | .draft_angle => { ae_fraction_range := some (0.2, 0.4), ap_fraction_range := (0.8, 1.5) }
  | .boring => { ae_fraction := some 1, ap_fraction_range := (0.3, 0.6) }
  | .internal_profile => { ae_fraction_range := some (0.2, 0.4), ap_fraction_range := (0.5, 1) }
  | .slitting => { ae_fraction := some 1, ap_fraction_range := (8, 15) }
  | .grooving => { ae_fraction := some 1, ap_fraction_range := (5, 10) }

/-- The radial engagement limit fraction read at speeds-feeds.js line 181:
matLimits.max_radial_engagement_fraction[cutType] || 0.3. -/
def radialLimitFraction (m : Material) (ct : CutType) : ℚ :=
  jsOr (m.max_radial_engagement_fraction ct) 0.3

/-- The axial engagement limit fraction read at speeds-feeds.js line 187:
matLimits.max_axial_per_pass_D[cutType] || 1.0. -/
def axialLimitFraction (m : Material) (ct : CutType) : ℚ :=
  jsOr (m.max_axial_per_pass_D ct) 1

/-- Body of getBaseEngagementParams (speeds-feeds.js lines 159-192),
parametrized by the cut definition record it reads fractions from (the source
always reads this.getCutDefinition(); the spec-modelled variant below reads
the CUT_TYPES catalog instead).  Drill: full diameter and half-diameter depth.
V-bit: geometry from tip diameter, included angle and an assumed engagement
depth.  All others: fraction midpoints clamped by the material limits and
scaled by the machine aggressiveness, with slot cuts taking full width. -/
noncomputable def engagementFromCutDef (cutDef : CutDef) (mach : Machine)
    (t : Tool) (m : Material) (ct : CutType) (D : ℝ) : ℝ × ℝ :=
  if t.type = .drill then
    (D, D * 0.5)
  else if t.type = .vbit then
    let angle_rad := (t.angle_deg : ℝ) * Real.pi / 180
    let estimatedDepth := (t.tip_diameter_mm : ℝ) + 2
    (estimatedDepth * Real.tan (angle_rad / 2) * 2, estimatedDepth)
  else
    let ae : ℝ :=
      if ct = .slot then D
      else
        let aeRange := cutDef.ae_fraction_range.getD
          (cutDef.ae_fraction.getD 0, cutDef.ae_fraction.getD 0)
        let aeFraction := (aeRange.1 + aeRange.2) / 2
        let maxAe := D * (radialLimitFraction m ct : ℝ)
        min (D * (aeFraction : ℝ)) maxAe * (mach.aggressiveness.radial : ℝ)
    let apRange := cutDef.ap_fraction_range
    let apFraction := (apRange.1 + apRange.2) / 2
    let maxAp := D * (axialLimitFraction m ct : ℝ)
    let ap := min (D * (apFraction : ℝ)) maxAp * (mach.aggressiveness.axial : ℝ)
    (ae, ap)

/-- getBaseEngagementParams of SpeedsFeedsCalculator: the engagement body
reading the fixed getCutDefinition stub, as the source does. -/
noncomputable def getBaseEngagementParams (mach : Machine) (t : Tool)
    (m : Material) (ct : CutType) (D : ℝ) : ℝ × ℝ :=
  engagementFromCutDef getCutDefinition mach t m ct D

/-- Modelled from the spec: the engagement resolver of section 4.1, which
reads the nominal fraction ranges from the cut-type-indexed CUT_TYPES catalog
(the wiring of the catalog into the resolver is what the code's stub is
missing). -/
noncomputable def specCatalogEngagementParams (mach : Machine) (t : Tool)
    (m : Material) (ct : CutType) (D : ℝ) : ℝ × ℝ :=
  engagementFromCutDef (CUT_TYPES ct) mach t m ct D

/-- getMaxAllowableDOC (speeds-feeds.js lines 194-197). -/
noncomputable def getMaxAllowableDOC (m : Material) (ct : CutType) (D : ℝ) : ℝ :=
  D * (axialLimitFraction m ct : ℝ)

/-- getEngagementParams (speeds-feeds.js lines 138-157): the base engagement,
with a user depth-of-cut override replacing ap outright when supplied, and a
warning pushed when the override exceeds the material maximum. -/
noncomputable def getEngagementParams (mach : Machine) (t : Tool) (m : Material)
    (ct : CutType) (userDOC : Option ℝ) (D : ℝ) (ws : List Warning) :
    (ℝ × ℝ) × List Warning :=
  let base := getBaseEngagementParams mach t m ct D
  let ap := match userDOC with
    | some v => v
    | none => base.2
  let ws2 := match userDOC with
    | some _ =>
        if ap > getMaxAllowableDOC m ct D then
          ws ++ [⟨.warning, .userDocExceedsMax ap (getMaxAllowableDOC m ct D)⟩]
        else ws
    | none => ws
  ((base.1, ap), ws2)

/-! ### Chip thinning and feed -/

/-- Chip-thinning correction step of SpeedsFeedsCalculator.calculate
(speeds-feeds.js lines 54-58): when the material defines chip_thinning and the
radial engagement is below diameter * enable_below_fraction, the chip load is
scaled by sqrt(D / ae) and an info diagnostic is pushed. -/
noncomputable def applyChipThinning (m : Material) (D ae fz : ℝ)
    (ws : List Warning) : ℝ × List Warning :=
  match m.chip_thinning with
  | some frac =>
      if ae < D * (frac : ℝ) then
        (fz * Real.sqrt (D / ae), ws ++ [⟨.info, .chipThinningApplied⟩])
      else (fz, ws)
  | none => (fz, ws)

/-- Lines 54-61 of SpeedsFeedsCalculator.calculate: the chip-thinning step
followed by the feed-rate computation vf = rpm * z * fz, so the feed uses the
thinned chip load.  Returns (vf, fz after thinning, warnings). -/
noncomputable def resolveFeed (m : Material) (rpm z D ae fz : ℝ)
    (ws : List Warning) : ℝ × ℝ × List Warning :=
  let p := applyChipThinning m D ae fz ws
  (rpm * z * p.1, p.1, p.2)

/-! ### Deflection model -/

/-- Tool stickout as read at speeds-feeds.js line 259: tool.stickout_mm || 20. -/
def toolStickout (t : Tool) : ℚ := jsOr t.stickout_mm 20

/-- Tool bending diameter as read at line 260: tool.shank_mm || tool.diameter_mm. -/
def toolShank (t : Tool) : ℚ := jsOr t.shank_mm t.diameter_mm

/-- Young's modulus selection (lines 263-266): HSS_YOUNGS_MODULUS = 210000 for
hss, otherwise CARBIDE_YOUNGS_MODULUS = 600000 (values from the materials
database MATERIAL_CONSTANTS). -/
def toolModulus (t : Tool) : ℚ :=
  if t.material = .hss then 210000 else 600000

/-- calculateImprovedDeflection of SpeedsFeedsCalculator (speeds-feeds.js
lines 258-282): cantilever bending with I = pi*d^4/64, shear with factor 1.2
and shear modulus E/2.6, and a holder term with the single fixed empirical
compliance 0.002 mm/N ("for typical holders"). -/
noncomputable def calculateImprovedDeflection (t : Tool) (force : ℝ) : ℝ :=
  let L := (toolStickout t : ℝ)
  let d := (toolShank t : ℝ)
  let E := (toolModulus t : ℝ)
  let I := Real.pi * d ^ 4 / 64
  let bendingDeflection := force * L ^ 3 / (3 * E * I)
  let G := E / 2.6
  let A := Real.pi * d ^ 2 / 4
  let shearDeflection := 1.2 * force * L / (G * A)
  let holderCompliance : ℝ := 0.002
  let holderDeflection := force * holderCompliance
  bendingDeflection + shearDeflection + holderDeflection

/-- The TOOL_HOLDER_COMPLIANCE table of DEFLECTION_CONSTANTS
(src/src/utils/constants.js lines 37-44), in mm/N. -/
def TOOL_HOLDER_COMPLIANCE : HolderType → ℚ
  | .collet => 0.001
  | .shrink_fit => 0.0005
  | .hydraulic => 0.0003
  | .poor_setup => 0.005

/-- Modelled from the spec: total deflection as the claim reads it — the same
bending and shear terms, but with the holder term using the per-holder-type
compliance constant of the TOOL_HOLDER_COMPLIANCE table. -/
noncomputable def claimedDeflectionPerHolder (t : Tool) (force : ℝ)
    (h : HolderType) : ℝ :=
  let L := (toolStickout t : ℝ)
  let d := (toolShank t : ℝ)
  let E := (toolModulus t : ℝ)
  let I := Real.pi * d ^ 4 / 64
  let bendingDeflection := force * L ^ 3 / (3 * E * I)
  let G := E / 2.6
  let A := Real.pi * d ^ 2 / 4
  let shearDeflection := 1.2 * force * L / (G * A)
  let holderDeflection := force * (TOOL_HOLDER_COMPLIANCE h : ℝ)
  bendingDeflection + shearDeflection + holderDeflection

/-- The deflection threshold checks of SpeedsFeedsCalculator.calculate
(speeds-feeds.js lines 99-103): strictly above 0.05 pushes a danger
diagnostic, otherwise strictly above 0.02 pushes a warning diagnostic. -/
noncomputable def deflectionWarnings (d : ℝ) (ws : List Warning) : List Warning :=
  if d > 0.05 then ws ++ [⟨.danger, .highDeflection d⟩]
  else if d > 0.02 then ws ++ [⟨.warning, .moderateDeflection d⟩]
  else ws

/-- The deflection block of SpeedsFeedsCalculator.calculate (speeds-feeds.js
lines 96-104): deflection starts at 0 and is computed, and the thresholds
checked, only for the flat end mill, ball end mill and tapered variants. -/
noncomputable def deflectionStep (t : Tool) (force : ℝ) (ws : List Warning) :
    ℝ × List Warning :=
  if t.type = .endmill_flat ∨ t.type = .endmill_ball ∨ t.type = .tapered then
    let d := calculateImprovedDeflection t force
    (d, deflectionWarnings d ws)
  else (0, ws)

/-! ### Sample records used by concrete witnesses and counterexamples -/

/-- A machine with rigidity 1 and neutral aggressiveness. -/
def sampleMachine : Machine := { K_rigidity := 1, aggressiveness := ⟨1, 1⟩ }

/-- A material that defines no per-cut engagement fraction entries. -/
def bareMaterial : Material :=
  { max_radial_engagement_fraction := fun _ => none
    max_axial_per_pass_D := fun _ => none
    chip_thinning := none
    specific_cutting_energy_J_mm3 := 1 }

/-- A material whose engagement fraction tables answer 1 for every cut type
(so the material clamp never binds), with specific cutting energy 1 J/mm3. -/
def fullLimitMaterial : Material :=
  { max_radial_engagement_fraction := fun _ => some 1
    max_axial_per_pass_D := fun _ => some 1
    chip_thinning := none
    specific_cutting_energy_J_mm3 := 1 }

/-- A material with specific cutting energy 60 J/mm3 (convenient for exact
power values) and no other data. -/
def energeticMaterial : Material :=
  { max_radial_engagement_fraction := fun _ => none
    max_axial_per_pass_D := fun _ => none
    chip_thinning := none
    specific_cutting_energy_J_mm3 := 60 }

/-- A material whose chip-thinning threshold fraction is 0.5 (the value every
material in the database uses). -/
def thinningMaterial : Material :=
  { max_radial_engagement_fraction := fun _ => none
    max_axial_per_pass_D := fun _ => none
    chip_thinning := some 0.5
    specific_cutting_energy_J_mm3 := 1 }

/-- A 10 mm flat end mill. -/
def flatTool10 : Tool := { type := .endmill_flat, diameter_mm := 10 }

/-- A 6 mm carbide flat end mill with 6 mm shank and 20 mm stickout. -/
def flatTool6 : Tool :=
  { type := .endmill_flat, diameter_mm := 6, stickout_mm := some 20,
    shank_mm := some 6 }

/-- The spec's scenario D tool: carbide flat end mill, 3 mm shank, 40 mm
stickout. -/
def slenderTool : Tool :=
  { type := .endmill_flat, diameter_mm := 3, stickout_mm := some 40,
    shank_mm := some 3 }

/-- The dewalt_611 spindle preset of the spindles database: rated 1.25 kW,
rpm_min 16000, rpm_max 27000, base_rpm 16000. -/
def dewalt611 : Spindle :=
  { rated_power_kW := 1.25, base_rpm := 16000, rpm_min := 16000,
    rpm_max := 27000 }

/-- A 2.2 kW spindle preset shape (rpm_min 6000, base 12000, max 24000), whose
torque ramp completes before base RPM. -/
def spindle22 : Spindle :=
  { rated_power_kW := 2.2, base_rpm := 12000, rpm_min := 6000,
    rpm_max := 24000 }

/-! ## Helper lemmas -/

/-- Closed form of calculateImprovedPower. -/
theorem calculateImprovedPower_eq (m : Material) (mach : Machine)
    (tt : ToolType) (ae ap vf : ℚ) :
    calculateImprovedPower m mach tt ae ap vf
      = ae * ap * vf * m.specific_cutting_energy_J_mm3 / 60
          * getToolPowerFactor tt * mach.K_rigidity * 1.15 := by
  simp only [calculateImprovedPower]
  ring

/-- calculateImprovedPower is linear in the feed rate. -/
theorem calculateImprovedPower_smul (m : Material) (mach : Machine)
    (tt : ToolType) (ae ap vf c : ℚ) :
    calculateImprovedPower m mach tt ae ap (vf * c)
      = calculateImprovedPower m mach tt ae ap vf * c := by
  simp only [calculateImprovedPower]
  ring

/-- Closed form of calculateImprovedDeflection. -/
theorem calculateImprovedDeflection_eq (t : Tool) (force : ℝ) :
    calculateImprovedDeflection t force
      = force * (toolStickout t : ℝ) ^ 3
          / (3 * (toolModulus t : ℝ) * (Real.pi * (toolShank t : ℝ) ^ 4 / 64))
        + 1.2 * force * (toolStickout t : ℝ)
          / (((toolModulus t : ℝ) / 2.6) * (Real.pi * (toolShank t : ℝ) ^ 2 / 4))
        + force * 0.002 := rfl

/-! ## Claims -/

/-- Claim C1: in the power balancer, whenever required power exceeds 90
percent of available power (and only then), feed rate, chip load and MRR are
all multiplied by the identical factor (available * 0.85) / required, a
warning-severity Power limited diagnostic is appended, the factor lies in
(0, 1] (given positive available power), and required power recomputed at the
scaled feed equals available power * 0.85 exactly. -/
theorem c1_power_balancer (m : Material) (mach : Machine) (tt : ToolType)
    (ae ap vf fz mrr PA PR r : ℚ) (ws : List Warning)
    (hPR : PR = calculateImprovedPower m mach tt ae ap vf)
    (hr : r = PA * 0.85 / PR)
    (hPA : 0 < PA)
    (hover : PR > PA * 0.9) :
    powerBalance PR PA vf fz mrr ws
        = (vf * r, fz * r, mrr * r, ws ++ [⟨.warning, .powerLimited⟩])
    ∧ 0 < r ∧ r < 1
    ∧ calculateImprovedPower m mach tt ae ap (vf * r) = PA * 0.85
    ∧ ∀ PR2 PA2 vf2 fz2 mrr2 : ℚ, ∀ ws2 : List Warning,
        ¬ PR2 > PA2 * 0.9 →
        powerBalance PR2 PA2 vf2 fz2 mrr2 ws2 = (vf2, fz2, mrr2, ws2) := by
  have hPRpos : 0 < PR := lt_trans (by nlinarith) hover
  refine ⟨?_, ?_, ?_, ?_, ?_⟩
  · simp only [powerBalance, if_pos hover, hr]
  · rw [hr]
    exact div_pos (by nlinarith) hPRpos
  · rw [hr, div_lt_one hPRpos]
    nlinarith
  · rw [calculateImprovedPower_smul, ← hPR, hr, mul_comm,
      div_mul_cancel₀ _ (ne_of_gt hPRpos)]
  · intro PR2 PA2 vf2 fz2 mrr2 ws2 h
    simp only [powerBalance, if_neg h]

/-- Claim C1 witness: a concrete over-budget instance (required power 69 W,
available 10 W) on which the balancer scales by 17/138. -/
theorem c1_power_balancer_witness :
    (69 : ℚ) = calculateImprovedPower energeticMaterial sampleMachine
        .endmill_flat 1 1 60
    ∧ (17 / 138 : ℚ) = 10 * 0.85 / 69
    ∧ (0 : ℚ) < 10
    ∧ (69 : ℚ) > 10 * 0.9
    ∧ (powerBalance 69 10 60 1 60 []
          = (60 * (17 / 138), 1 * (17 / 138), 60 * (17 / 138),
             [] ++ [⟨.warning, .powerLimited⟩])
       ∧ (0 : ℚ) < 17 / 138 ∧ (17 / 138 : ℚ) < 1
       ∧ calculateImprovedPower energeticMaterial sampleMachine .endmill_flat
           1 1 (60 * (17 / 138)) = 10 * 0.85
       ∧ ∀ PR2 PA2 vf2 fz2 mrr2 : ℚ, ∀ ws2 : List Warning,
           ¬ PR2 > PA2 * 0.9 →
           powerBalance PR2 PA2 vf2 fz2 mrr2 ws2 = (vf2, fz2, mrr2, ws2)) := by
  have h1 : (69 : ℚ) = calculateImprovedPower energeticMaterial sampleMachine
      .endmill_flat 1 1 60 := by
    norm_num [calculateImprovedPower, energeticMaterial, sampleMachine,
      getToolPowerFactor]
  have h2 : (17 / 138 : ℚ) = 10 * 0.85 / 69 := by norm_num
  have h3 : (0 : ℚ) < 10 := by norm_num
  have h4 : (69 : ℚ) > 10 * 0.9 := by norm_num
  exact ⟨h1, h2, h3, h4,
    c1_power_balancer energeticMaterial sampleMachine .endmill_flat
      1 1 60 1 60 10 69 (17 / 138) [] h1 h2 h3 h4⟩

/-- Claim C6 counterexample: for the dewalt_611 spindle preset (rpm_min =
base_rpm = 16000), the torque ramp is still incomplete at base RPM, so the
available power at base RPM is 2125/3 W, strictly less than the full rated
power times efficiency 1062.5 W — the claim's "reaching full rated power at
base RPM" fails. -/
theorem c6_full_power_at_base_counterexample :
    getSpindlePowerAtRPM dewalt611 dewalt611.base_rpm = 2125 / 3
    ∧ dewalt611.rated_power_kW * 1000 * 0.85 = 2125 / 2
    ∧ (2125 / 3 : ℚ) ≠ 2125 / 2 := by
  refine ⟨?_, by norm_num [dewalt611], by norm_num⟩
  norm_num [getSpindlePowerAtRPM, dewalt611, min_def]

/-- Claim C6 (amended): the spindle power curve is zero outside
[rpm_min, rpm_max]; at or below base RPM it is rated power * (rpm / base_rpm)
times the capped torque ratio min(rpm / (rpm_min * 1.5), 1); above base RPM it
is constant rated power; everything times the 0.85 efficiency factor.  It
reaches full rated power (times 0.85) at base RPM whenever the ramp completes
by then, i.e. when rpm_min * 1.5 ≤ base_rpm (with 0 < rpm_min). -/
theorem c6_spindle_power_curve_amended (s : Spindle) (rpm : ℚ) :
    ((rpm < s.rpm_min ∨ rpm > s.rpm_max) → getSpindlePowerAtRPM s rpm = 0)
    ∧ (s.rpm_min ≤ rpm → rpm ≤ s.rpm_max → rpm ≤ s.base_rpm →
        getSpindlePowerAtRPM s rpm
          = s.rated_power_kW * 1000 * (rpm / s.base_rpm)
              * min (rpm / (s.rpm_min * 1.5)) 1 * 0.85)
    ∧ (s.rpm_min ≤ rpm → rpm ≤ s.rpm_max → s.base_rpm < rpm →
        getSpindlePowerAtRPM s rpm = s.rated_power_kW * 1000 * 0.85)
    ∧ (0 < s.rpm_min → s.rpm_min * 1.5 ≤ s.base_rpm → s.base_rpm ≤ s.rpm_max →
        getSpindlePowerAtRPM s s.base_rpm
          = s.rated_power_kW * 1000 * 0.85) := by
  refine ⟨?_, ?_, ?_, ?_⟩
  · intro h
    simp only [getSpindlePowerAtRPM, if_pos h]
  · intro h1 h2 h3
    simp only [getSpindlePowerAtRPM,
      if_neg (by push_neg; exact ⟨h1, h2⟩ : ¬ (rpm < s.rpm_min ∨ rpm > s.rpm_max)),
      if_pos h3]
  · intro h1 h2 h3
    simp only [getSpindlePowerAtRPM,
      if_neg (by push_neg; exact ⟨h1, h2⟩ : ¬ (rpm < s.rpm_min ∨ rpm > s.rpm_max)),
      if_neg (not_le.mpr h3)]
  · intro h0 h1 h2
    have hmin : s.rpm_min ≤ s.base_rpm := le_trans (by nlinarith) h1
    have hbase : 0 < s.base_rpm := lt_of_lt_of_le (by nlinarith) h1
    simp only [getSpindlePowerAtRPM,
      if_neg (by push_neg; exact ⟨hmin, h2⟩ :
        ¬ (s.base_rpm < s.rpm_min ∨ s.base_rpm > s.rpm_max)),
      if_pos (le_refl s.base_rpm)]
    rw [min_eq_right ((one_le_div (by nlinarith)).mpr h1),
      div_self (ne_of_gt hbase)]
    ring

/-- Claim C6 witness: the amended curve evaluated on the 2.2 kW spindle preset
at out-of-range, ramp-region, constant-power-region and base RPM points. -/
theorem c6_spindle_power_curve_witness :
    getSpindlePowerAtRPM spindle22 5000 = 0
    ∧ getSpindlePowerAtRPM spindle22 9000 = 2805 / 2
    ∧ getSpindlePowerAtRPM spindle22 20000 = 1870
    ∧ getSpindlePowerAtRPM spindle22 12000 = 1870 := by
  refine ⟨?_, ?_, ?_, ?_⟩
  · exact (c6_spindle_power_curve_amended spindle22 5000).1
      (Or.inl (by norm_num [spindle22]))
  · have h := (c6_spindle_power_curve_amended spindle22 9000).2.1
      (by norm_num [spindle22]) (by norm_num [spindle22])
      (by norm_num [spindle22])
    rw [h]
    norm_num [spindle22, min_def]
  · have h := (c6_spindle_power_curve_amended spindle22 20000).2.2.1
      (by norm_num [spindle22]) (by norm_num [spindle22])
      (by norm_num [spindle22])
    rw [h]
    norm_num [spindle22]
  · have h := (c6_spindle_power_curve_amended spindle22 12000).2.2.2
      (by norm_num [spindle22]) (by norm_num [spindle22])
      (by norm_num [spindle22])
    rw [show spindle22.base_rpm = 12000 from rfl] at h
    rw [h]
    norm_num [spindle22]

/-- Claim C9: when rpm_min ≤ rpm_max, the clamped RPM always lies in
[rpm_min, rpm_max], so the out-of-range zero-power branch of
getSpindlePowerAtRPM is never taken on the clamped value: the available power
is always given by one of the two in-range branches. -/
theorem c9_clamped_rpm_power_in_range (s : Spindle) (rpm : ℚ)
    (ws : List Warning) (h : s.rpm_min ≤ s.rpm_max) :
    s.rpm_min ≤ (clampRPM s rpm ws).1
    ∧ (clampRPM s rpm ws).1 ≤ s.rpm_max
    ∧ ¬ ((clampRPM s rpm ws).1 < s.rpm_min ∨ (clampRPM s rpm ws).1 > s.rpm_max)
    ∧ getSpindlePowerAtRPM s (clampRPM s rpm ws).1
        = (if (clampRPM s rpm ws).1 ≤ s.base_rpm then
             s.rated_power_kW * 1000 * ((clampRPM s rpm ws).1 / s.base_rpm)
               * min ((clampRPM s rpm ws).1 / (s.rpm_min * 1.5)) 1
           else s.rated_power_kW * 1000) * 0.85 := by
  have hlo : s.rpm_min ≤ (clampRPM s rpm ws).1 := by
    simp only [clampRPM]
    split_ifs with h1 h2
    · exact le_refl _
    · exact h
    · exact le_of_not_lt h1
  have hhi : (clampRPM s rpm ws).1 ≤ s.rpm_max := by
    simp only [clampRPM]
    split_ifs with h1 h2
    · exact h
    · exact le_refl _
    · exact le_of_not_lt h2
  have hguard : ¬ ((clampRPM s rpm ws).1 < s.rpm_min
      ∨ (clampRPM s rpm ws).1 > s.rpm_max) := by
    push_neg
    exact ⟨hlo, hhi⟩
  refine ⟨hlo, hhi, hguard, ?_⟩
  simp only [getSpindlePowerAtRPM, if_neg hguard]

/-- Claim C9 witness: an over-speed request on the 2.2 kW preset is clamped to
rpm_max and the zero-power branch is not taken. -/
theorem c9_clamped_rpm_power_in_range_witness :
    spindle22.rpm_min ≤ spindle22.rpm_max
    ∧ ¬ ((clampRPM spindle22 999999 []).1 < spindle22.rpm_min
          ∨ (clampRPM spindle22 999999 []).1 > spindle22.rpm_max) :=
  ⟨by norm_num [spindle22],
   (c9_clamped_rpm_power_in_range spindle22 999999 []
      (by norm_num [spindle22])).2.2.1⟩

/-- Claim C2 counterexample: for a drill (D = 2 mm, ae = 2, ap = 1, vf = 60,
specific cutting energy 1, rigidity 1) the power the code computes (2.53 W,
from the rectangular MRR ae*ap*vf) differs from the claim's formula built on
the circular drill MRR pi*D^2/4*vf (which gives 1.265*pi W). -/
theorem c2_drill_power_counterexample :
    ((calculateImprovedPower fullLimitMaterial sampleMachine .drill 2 1 60 : ℚ) : ℝ)
      ≠ claimedRequiredPower fullLimitMaterial sampleMachine .drill 2 2 1 60 := by
  intro h
  have hpi := Real.pi_gt_three
  norm_num [calculateImprovedPower, claimedRequiredPower, calculateMRR,
    fullLimitMaterial, sampleMachine, getToolPowerFactor] at h
  nlinarith [hpi, h]

/-- Claim C2 (amended): required cutting power equals
(MRR * specific_cutting_energy / 60) * tool power factor * rigidity factor
plus the 15 percent surcharge, where the MRR entering the power formula is
ae * ap * feed for every tool variant, the drill included; the circular
cross-section MRR pi*D^2/4*feed is computed by calculateMRR for the drill
variant only for the separately reported MRR value. -/
theorem c2_power_formula_amended (m : Material) (mach : Machine)
    (tt : ToolType) (ae ap vf : ℚ) (D rae rap rvf : ℝ) :
    calculateImprovedPower m mach tt ae ap vf
      = ae * ap * vf * m.specific_cutting_energy_J_mm3 / 60
          * getToolPowerFactor tt * mach.K_rigidity * 1.15
    ∧ calculateMRR .drill D rae rap rvf = Real.pi * (D * D / 4) * rvf
    ∧ (tt ≠ .drill → calculateMRR tt D rae rap rvf = rae * rap * rvf) := by
  refine ⟨calculateImprovedPower_eq m mach tt ae ap vf, ?_, ?_⟩
  · simp only [calculateMRR, reduceIte]
    ring
  · intro h
    simp only [calculateMRR, if_neg h]

/-- Claim C2 witness: the amended statement at a flat end mill (a non-drill
variant), whose MRR is the rectangular product. -/
theorem c2_power_formula_amended_witness :
    ToolType.endmill_flat ≠ ToolType.drill
    ∧ calculateMRR .endmill_flat 10 3 5 100 = 3 * 5 * 100 :=
  ⟨by decide,
   (c2_power_formula_amended fullLimitMaterial sampleMachine .endmill_flat
      1 1 1 10 3 5 100).2.2 (by decide)⟩

/-- Claim C3: the code's engagement resolver reads the fixed getCutDefinition
stub (ap fraction range [0.5, 1.0] for every cut type), not the
cut-type-indexed CUT_TYPES catalog the claim (and the source's own comment)
describe: for a slot cut with a 10 mm flat end mill and permissive material
limits the code resolves ap = 7.5 mm where the catalog midpoint of [0.8, 1.0]
gives ap = 9 mm. -/
theorem c3_engagement_stub_vs_catalog :
    getBaseEngagementParams sampleMachine flatTool10 fullLimitMaterial .slot 10
      = (10, 7.5)
    ∧ specCatalogEngagementParams sampleMachine flatTool10 fullLimitMaterial
        .slot 10 = (10, 9)
    ∧ ((7.5 : ℝ) ≠ 9) := by
  refine ⟨?_, ?_, by norm_num⟩
  · simp only [getBaseEngagementParams, engagementFromCutDef, getCutDefinition,
      flatTool10, fullLimitMaterial, sampleMachine, radialLimitFraction,
      axialLimitFraction, jsOr, reduceCtorEq, reduceIte]
    norm_num [min_def]
  · simp only [specCatalogEngagementParams, engagementFromCutDef, CUT_TYPES,
      flatTool10, fullLimitMaterial, sampleMachine, radialLimitFraction,
      axialLimitFraction, jsOr, reduceCtorEq, reduceIte]
    norm_num [min_def]

/-- Claim C4 counterexample: for a material with no radial engagement fraction
entry for the profile cut, the fraction the resolver uses (line 181's fallback)
is 0.3, not the claimed 1.0. -/
theorem c4_radial_default_counterexample :
    radialLimitFraction bareMaterial .profile = 0.3
    ∧ radialLimitFraction bareMaterial .profile ≠ 1 := by
  constructor <;> norm_num [radialLimitFraction, bareMaterial, jsOr]

/-- Claim C4 (amended): the engagement resolver's fraction lookups are total
(they never throw): a missing axial entry defaults to 1.0 (full engagement)
but a missing radial entry defaults to 0.3. -/
theorem c4_lookup_defaults_amended (m : Material) (ct : CutType) :
    (m.max_radial_engagement_fraction ct = none →
      radialLimitFraction m ct = 0.3)
    ∧ (m.max_axial_per_pass_D ct = none → axialLimitFraction m ct = 1) := by
  constructor <;> intro h <;>
    simp [radialLimitFraction, axialLimitFraction, jsOr, h]

/-- Claim C4 witness: the defaults on a material with empty fraction tables. -/
theorem c4_lookup_defaults_amended_witness :
    bareMaterial.max_radial_engagement_fraction .profile = none
    ∧ bareMaterial.max_axial_per_pass_D .profile = none
    ∧ radialLimitFraction bareMaterial .profile = 0.3
    ∧ axialLimitFraction bareMaterial .profile = 1 :=
  ⟨rfl, rfl, (c4_lookup_defaults_amended bareMaterial .profile).1 rfl,
   (c4_lookup_defaults_amended bareMaterial .profile).2 rfl⟩

/-- Claim C10: for every request, the user depth-of-cut override leaves the
radial engagement unchanged — the result's ae is the base ae whether or not an
override is supplied; the override replaces only ap, the run without an
override keeps the base ap, and the run without an override adds no
diagnostics. -/
theorem c10_doc_override_preserves_ae (mach : Machine) (t : Tool)
    (m : Material) (ct : CutType) (D v : ℝ) (ws : List Warning) :
    ((getEngagementParams mach t m ct (some v) D ws).1).1
        = ((getEngagementParams mach t m ct none D ws).1).1
    ∧ ((getEngagementParams mach t m ct (some v) D ws).1).1
        = (getBaseEngagementParams mach t m ct D).1
    ∧ ((getEngagementParams mach t m ct (some v) D ws).1).2 = v
    ∧ ((getEngagementParams mach t m ct none D ws).1).2
        = (getBaseEngagementParams mach t m ct D).2
    ∧ (getEngagementParams mach t m ct none D ws).2 = ws :=
  ⟨rfl, rfl, rfl, rfl, rfl⟩

/-- Claim C5: the chip-thinning correction fires exactly when the material
defines a thinning threshold and ae < D * threshold; when it fires the chip
load is scaled by sqrt(D / ae) and the feed rate is computed from the scaled
chip load, and the info diagnostic is appended; at threshold 0.5, D = 6 and
ae = 2 the factor is sqrt 3. -/
theorem c5_chip_thinning (m : Material) (rpm z D ae fz : ℝ)
    (ws : List Warning) :
    ((applyChipThinning m D ae fz ws).2
        = ws ++ [⟨.info, .chipThinningApplied⟩]
      ↔ ∃ f : ℚ, m.chip_thinning = some f ∧ ae < D * (f : ℝ))
    ∧ (∀ f : ℚ, m.chip_thinning = some f → ae < D * (f : ℝ) →
        (applyChipThinning m D ae fz ws).1 = fz * Real.sqrt (D / ae)
        ∧ (resolveFeed m rpm z D ae fz ws).1
            = rpm * z * (fz * Real.sqrt (D / ae)))
    ∧ ((¬ ∃ f : ℚ, m.chip_thinning = some f ∧ ae < D * (f : ℝ)) →
        applyChipThinning m D ae fz ws = (fz, ws))
    ∧ (m.chip_thinning = some 0.5 → D = 6 → ae = 2 →
        (applyChipThinning m D ae fz ws).1 = fz * Real.sqrt 3) := by
  refine ⟨?_, ?_, ?_, ?_⟩
  · constructor
    · intro h
      rcases hm : m.chip_thinning with _ | f
      · simp only [applyChipThinning, hm] at h
        exact absurd h (by simp)
      · refine ⟨f, rfl, ?_⟩
        by_contra hlt
        simp only [applyChipThinning, hm, if_neg hlt] at h
        exact absurd h (by simp)
    · rintro ⟨f, hm, hlt⟩
      simp only [applyChipThinning, hm, if_pos hlt]
  · intro f hm hlt
    constructor
    · simp only [applyChipThinning, hm, if_pos hlt]
    · simp only [resolveFeed, applyChipThinning, hm, if_pos hlt]
  · intro h
    rcases hm : m.chip_thinning with _ | f
    · simp only [applyChipThinning, hm]
    · simp only [applyChipThinning, hm,
        if_neg (fun hlt => h ⟨f, hm, hlt⟩)]
  · intro hm hD hae
    subst hD
    subst hae
    have h : (2 : ℝ) < 6 * ((0.5 : ℚ) : ℝ) := by norm_num
    simp only [applyChipThinning, hm, if_pos h]
    norm_num

/-- Claim C5 witness: the spec's scenario B instance — threshold 0.5, 6 mm
diameter, 2 mm radial engagement — scales the chip load by sqrt 3 and the feed
uses the scaled chip load. -/
theorem c5_chip_thinning_witness :
    thinningMaterial.chip_thinning = some 0.5
    ∧ (2 : ℝ) < 6 * ((0.5 : ℚ) : ℝ)
    ∧ (applyChipThinning thinningMaterial 6 2 1 []).1 = 1 * Real.sqrt (6 / 2)
    ∧ (resolveFeed thinningMaterial 100 2 6 2 1 []).1
        = 100 * 2 * (1 * Real.sqrt (6 / 2)) := by
  have h := (c5_chip_thinning thinningMaterial 100 2 6 2 1 []).2.1 0.5 rfl
    (by norm_num)
  exact ⟨rfl, by norm_num, h.1, h.2⟩

/-- Claim C7 counterexample: at a total deflection of exactly 0.05 mm the code
emits a warning-severity diagnostic, not the danger diagnostic the claim's
"≥ 0.05" requires, and at exactly 0.02 mm it emits nothing where the claim's
"≥ 0.02" requires a warning: both thresholds are strict in the code. -/
theorem c7_deflection_threshold_counterexample :
    deflectionWarnings 0.05 [] = [⟨.warning, .moderateDeflection 0.05⟩]
    ∧ deflectionWarnings 0.02 [] = []
    ∧ Severity.warning ≠ Severity.danger := by
  refine ⟨?_, ?_, by decide⟩
  · rw [deflectionWarnings, if_neg (by norm_num), if_pos (by norm_num)]
    rfl
  · rw [deflectionWarnings, if_neg (by norm_num), if_neg (by norm_num)]

/-- Claim C7 (amended): for the slender-shank variants (flat end mill, ball
end mill, tapered), a total deflection strictly above 0.05 mm produces a
danger diagnostic carrying the deflection value, one strictly above 0.02 mm
(and at most 0.05 mm) produces a warning diagnostic carrying the value, and no
deflection diagnostic is produced at or below 0.02 mm; for every other tool
variant the deflection block is skipped entirely (deflection stays 0, no
diagnostic). -/
theorem c7_deflection_thresholds_amended (t : Tool) (force : ℝ)
    (ws : List Warning) :
    (t.type = .endmill_flat ∨ t.type = .endmill_ball ∨ t.type = .tapered →
      (calculateImprovedDeflection t force > 0.05 →
        deflectionStep t force ws
          = (calculateImprovedDeflection t force,
             ws ++ [⟨.danger,
               .highDeflection (calculateImprovedDeflection t force)⟩]))
      ∧ (calculateImprovedDeflection t force ≤ 0.05 →
          calculateImprovedDeflection t force > 0.02 →
          deflectionStep t force ws
            = (calculateImprovedDeflection t force,
               ws ++ [⟨.warning,
                 .moderateDeflection (calculateImprovedDeflection t force)⟩]))
      ∧ (calculateImprovedDeflection t force ≤ 0.02 →
          deflectionStep t force ws = (calculateImprovedDeflection t force, ws)))
    ∧ (¬ (t.type = .endmill_flat ∨ t.type = .endmill_ball ∨ t.type = .tapered) →
        deflectionStep t force ws = (0, ws)) := by
  constructor
  · intro hs
    refine ⟨?_, ?_, ?_⟩
    · intro hd
      simp only [deflectionStep, deflectionWarnings, if_pos hs, if_pos hd]
    · intro hd1 hd2
      simp only [deflectionStep, deflectionWarnings, if_pos hs,
        if_neg (not_lt.mpr hd1), if_pos hd2]
    · intro hd
      simp only [deflectionStep, deflectionWarnings, if_pos hs,
        if_neg (not_lt.mpr (hd.trans (by norm_num : (0.02 : ℝ) ≤ 0.05))),
        if_neg (not_lt.mpr hd)]
  · intro hs
    simp only [deflectionStep, if_neg hs]

/-- Claim C7 witness: the spec's scenario D — carbide flat end mill, 3 mm
shank, 40 mm stickout, 80 N cutting force — puts total deflection above
0.05 mm and produces the danger diagnostic. -/
theorem c7_deflection_thresholds_amended_witness :
    (slenderTool.type = .endmill_flat ∨ slenderTool.type = .endmill_ball
      ∨ slenderTool.type = .tapered)
    ∧ calculateImprovedDeflection slenderTool 80 > 0.05
    ∧ deflectionStep slenderTool 80 []
        = (calculateImprovedDeflection slenderTool 80,
           [] ++ [⟨.danger,
             .highDeflection (calculateImprovedDeflection slenderTool 80)⟩]) := by
  have hs : slenderTool.type = .endmill_flat ∨ slenderTool.type = .endmill_ball
      ∨ slenderTool.type = .tapered := Or.inl rfl
  have hd : calculateImprovedDeflection slenderTool 80 > 0.05 := by
    have heq : calculateImprovedDeflection slenderTool 80
        = 80 * (40 : ℝ) ^ 3 / (3 * 600000 * (Real.pi * (3 : ℝ) ^ 4 / 64))
          + 1.2 * 80 * (40 : ℝ)
            / (((600000 : ℝ) / 2.6) * (Real.pi * (3 : ℝ) ^ 2 / 4))
          + 80 * 0.002 := by
      rw [calculateImprovedDeflection_eq,
        show toolModulus slenderTool = 600000 from rfl,
        show toolStickout slenderTool = 40 from rfl,
        show toolShank slenderTool = 3 from rfl]
      norm_num
    rw [heq]
    have h1 : (0 : ℝ) < 80 * (40 : ℝ) ^ 3
        / (3 * 600000 * (Real.pi * (3 : ℝ) ^ 4 / 64)) := by positivity
    have h2 : (0 : ℝ) < 1.2 * 80 * (40 : ℝ)
        / (((600000 : ℝ) / 2.6) * (Real.pi * (3 : ℝ) ^ 2 / 4)) := by positivity
    nlinarith [h1, h2]
  exact ⟨hs, hd,
    ((c7_deflection_thresholds_amended slenderTool 80 []).1 hs).1 hd⟩

/-- Claim C8 counterexample: for a concrete tool (6 mm carbide end mill, 6 mm
shank, 20 mm stickout) under 100 N, the code's total deflection (holder term
100 * 0.002) differs from the claim's per-holder-type formula for every holder
type in the TOOL_HOLDER_COMPLIANCE table: the code's compliance constant is
not any of the table's distinct per-holder values. -/
theorem c8_holder_compliance_counterexample :
    calculateImprovedDeflection flatTool6 100
        ≠ claimedDeflectionPerHolder flatTool6 100 .collet
    ∧ calculateImprovedDeflection flatTool6 100
        ≠ claimedDeflectionPerHolder flatTool6 100 .shrink_fit
    ∧ calculateImprovedDeflection flatTool6 100
        ≠ claimedDeflectionPerHolder flatTool6 100 .hydraulic
    ∧ calculateImprovedDeflection flatTool6 100
        ≠ claimedDeflectionPerHolder flatTool6 100 .poor_setup := by
  refine ⟨?_, ?_, ?_, ?_⟩ <;>
    · intro h
      simp only [calculateImprovedDeflection, claimedDeflectionPerHolder,
        TOOL_HOLDER_COMPLIANCE, toolStickout, toolShank, toolModulus,
        flatTool6, jsOr, reduceCtorEq, reduceIte] at h
      norm_num at h

/-- Claim C8 (amended): total deflection is the sum of the cantilever bending
term force * stickout^3 / (3 * E * I) with I = pi * shank^4 / 64, the shear
term 1.2 * force * stickout / ((E / 2.6) * (pi * shank^2 / 4)), and a holder
term force * 0.002 mm/N with the single fixed empirical compliance constant:
the per-holder-type table of DEFLECTION_CONSTANTS is not consulted by the
pipeline's deflection function. -/
theorem c8_deflection_formula_amended (t : Tool) (force : ℝ) :
    calculateImprovedDeflection t force
      = force * (toolStickout t : ℝ) ^ 3
          / (3 * (toolModulus t : ℝ) * (Real.pi * (toolShank t : ℝ) ^ 4 / 64))
        + 1.2 * force * (toolStickout t : ℝ)
          / (((toolModulus t : ℝ) / 2.6) * (Real.pi * (toolShank t : ℝ) ^ 2 / 4))
        + force * 0.002 := rfl

end JustTheChip
